import Mathlib

/-!
Shallow embedding of the spacemesh-db-connector core:
the derived-state cache (`network/state.go`) and the ingestion sink
(`sink` package). Machine integers are modelled as `Nat`/`Int` with
explicit `% 2^w` where Go's fixed-width arithmetic can wrap
(`uint64` heights, the `uint32` epoch identifier, `int64`/`uint64`
conversions). Fallible Go calls (`(T, error)` returns) are modelled
as `Except String T`.
-/

namespace SpacemeshDB

/-- Two to the sixty-fourth, the modulus of Go `uint64` arithmetic. -/
def U64 : Nat := 2 ^ 64

/-- Two to the thirty-second, the modulus of Go `uint32` (EpochID) arithmetic. -/
def U32 : Nat := 2 ^ 32

/-- Go conversion `uint64(i)` applied to an `int64` value: wraps modulo 2^64. -/
def uint64cast (i : Int) : Nat := (i % (2 ^ 64 : Int)).toNat

/-- Go conversion `int64(n)` applied to a `uint64` value: two's-complement wrap. -/
def int64cast (n : Nat) : Int :=
  let r : Nat := n % 2 ^ 64
  if r < 2 ^ 63 then (r : Int) else (r : Int) - 2 ^ 64

/-- An activation transaction as read back by `ReadDB.GetAtxForEpoch`
(fields used by `getHigestAtx` in `network/state.go`). -/
structure Atx where
  atxID : String
  nodeID : String
  baseTick : Nat
  tickCount : Nat
deriving Repr, DecidableEq

/-- A malfeasant node record as returned by `ReadDB.GetMalfeasanceNodes`. -/
structure MalfeasanceNode where
  id : String
deriving Repr, DecidableEq

/-- The height `atxHeight := atx.BaseTick + atx.TickCount` — a `uint64`
addition, hence taken modulo 2^64. -/
def atxHeight (a : Atx) : Nat := (a.baseTick + a.tickCount) % U64

/-- The membership test `malfeasanceNodesMap[atx.NodeID]` after the map is
built from the `GetMalfeasanceNodes` list. -/
def inMalfeasanceMap (l : List MalfeasanceNode) (nodeID : String) : Bool :=
  l.any (fun v => v.id == nodeID)

/-- The selection loop of `getHigestAtx`:
`var maxHeight uint64 = 0; atxID := ""`, then for each ATX in order,
`if atxHeight > maxHeight && !malfeasanceNodesMap[atx.NodeID]`
replace the tracked maximum and its ATX identifier. -/
def selectHighest (malf : String → Bool) : List Atx → Nat → String → String
  | [], _, atxID => atxID
  | a :: rest, maxHeight, atxID =>
    if atxHeight a > maxHeight && !(malf a.nodeID) then
      selectHighest malf rest (atxHeight a) a.atxID
    else
      selectHighest malf rest maxHeight atxID

/-- Value of a single hexadecimal digit, as accepted by Go's
`hex.DecodeString` (`0-9`, `a-f`, `A-F`). -/
def hexDigit (c : Char) : Option Nat :=
  if '0' ≤ c ∧ c ≤ '9' then some (c.toNat - 48)
  else if 'a' ≤ c ∧ c ≤ 'f' then some (c.toNat - 87)
  else if 'A' ≤ c ∧ c ≤ 'F' then some (c.toNat - 55)
  else none

/-- Go `hex.DecodeString` over the character list: consumes digit pairs in
order; an invalid digit in a pair is an error, a trailing odd character is a
length error. -/
def hexDecodeList : List Char → Except String (List Nat)
  | [] => Except.ok []
  | [_] => Except.error "encoding hex odd length hex string"
  | c1 :: c2 :: rest =>
    match hexDigit c1, hexDigit c2 with
    | some h, some l => (hexDecodeList rest).map (fun bs => (16 * h + l) :: bs)
    | _, _ => Except.error "encoding hex invalid byte"

/-- The standard base64 alphabet used by Go `base64.StdEncoding`. -/
def base64Chars : List Char :=
  "ABCDEFGHIJKLMNOPQRSTUVWXYZabcdefghijklmnopqrstuvwxyz0123456789+/".data

/-- Character for a 6-bit group. -/
def b64char (n : Nat) : Char := base64Chars.getD n 'A'

/-- Go `base64.StdEncoding.EncodeToString`: 3 bytes to 4 characters, with
`=` padding for a 1- or 2-byte tail. -/
def base64Encode : List Nat → String
  | [] => ""
  | [b0] =>
    String.mk [b64char (b0 / 4), b64char (b0 % 4 * 16), '=', '=']
  | [b0, b1] =>
    String.mk [b64char (b0 / 4), b64char (b0 % 4 * 16 + b1 / 16),
      b64char (b1 % 16 * 4), '=']
  | b0 :: b1 :: b2 :: rest =>
    String.mk [b64char (b0 / 4), b64char (b0 % 4 * 16 + b1 / 16),
      b64char (b1 % 16 * 4 + b2 / 64), b64char (b2 % 64)] ++ base64Encode rest

/-- Function `hexToBase64` from `network/state.go`: hex-decode the string, then
base64-encode the bytes; a hex decode error is returned as-is. -/
def hexToBase64 (s : String) : Except String String :=
  (hexDecodeList s.data).map base64Encode

/-- The last-processed-layer document returned by
`ReadDB.GetLastProcessedLayer` (the `layer.Layer` field, a layer number). -/
structure LayerDoc where
  layer : Nat
deriving Repr, DecidableEq

/-- Per-epoch ATX totals returned by `ReadDB.GetAtxEpoch`
(`TotalWeight`, `TotalEffectiveNumUnits`, both `uint64` values). -/
structure AtxEpochTotals where
  totalWeight : Nat
  totalEffectiveNumUnits : Nat
deriving Repr, DecidableEq

/-- The global network-info document returned by `ReadDB.GetNetworkInfo`
(only `CirculatingSupply` is read). -/
structure NetworkInfoDoc where
  circulatingSupply : Nat
deriving Repr, DecidableEq

/-- The read-side persistence port used by `NetworkState`
(`database.ReadDB`): each query either yields a value or fails. The
`int64`-returning Mongo counts are modelled as `Int`. -/
structure ReadDB where
  getLastProcessedLayer : Except String LayerDoc
  countAtxEpoch : Nat → Except String Int
  countAccounts : Except String Int
  getNetworkInfo : Except String NetworkInfoDoc
  getAtxEpoch : Nat → Except String AtxEpochTotals
  getAtxForEpoch : Nat → Except String (List Atx)
  getMalfeasanceNodes : Except String (List MalfeasanceNode)

/-- Modelled from the spec: the `NetworkUtils` / EpochMath collaborator
(`GetEpoch`, `GetEpochSubsidy`, `GetNumberOfSlots`) is not part of the
provided sources; the spec describes it as a stateless, deterministic
pure-function collaborator, so it is modelled as an abstract record of
functions. `GetEpoch` returns a `uint32` EpochID, which the embedding
enforces by reducing its result modulo 2^32 at the call sites. -/
structure NetworkUtils where
  getEpoch : Nat → Nat
  getEpochSubsidy : Nat → Nat
  getNumberOfSlots : Nat → Nat → Nat → Except String Int

/-- Function `getHigestAtx` from `network/state.go`: query the epoch's ATXs and the
malfeasant nodes, then run the selection loop from height 0 and empty
identifier. -/
def getHigestAtx (db : ReadDB) (epoch : Nat) : Except String String :=
  match db.getAtxForEpoch epoch with
  | Except.error e => Except.error e
  | Except.ok atxs =>
    match db.getMalfeasanceNodes with
    | Except.error e => Except.error e
    | Except.ok malfeasanceNodes =>
      Except.ok (selectHighest (inMalfeasanceMap malfeasanceNodes) atxs 0 "")

/-- The nested `types.NetworkInfoNextEpoch` record built by
`fetchNetworkInfo`. -/
structure NetworkInfoNextEpoch where
  epoch : Nat
  effectiveUnitsCommited : Int
  totalActiveSmeshers : Int
deriving Repr, DecidableEq

/-- The `types.NetworkInfo` snapshot assembled by `fetchNetworkInfo`.
The `NextEpoch` pointer is `Option`-valued; the Go zero value has a nil
pointer there. -/
structure NetworkInfo where
  epoch : Nat
  epochSubsidy : Nat
  layer : Nat
  totalSlots : Nat
  totalWeight : Nat
  effectiveUnitsCommited : Nat
  circulatingSupply : Nat
  price : ℚ
  marketCap : Nat
  totalAccounts : Nat
  atxHex : String
  atxBase64 : String
  totalActiveSmeshers : Nat
  nextEpoch : Option NetworkInfoNextEpoch
deriving Repr, DecidableEq

/-- The Go zero value `types.NetworkInfo{}` returned by `GetInfo` when
nothing has been stored. -/
def emptyNetworkInfo : NetworkInfo :=
  { epoch := 0, epochSubsidy := 0, layer := 0, totalSlots := 0
    totalWeight := 0, effectiveUnitsCommited := 0, circulatingSupply := 0
    price := 0, marketCap := 0, totalAccounts := 0, atxHex := ""
    atxBase64 := "", totalActiveSmeshers := 0, nextEpoch := none }

/-- Go conversion `uint64(float64(supply) * price)`: the price is modelled
as a rational; for a non-negative product, the conversion truncates to the
integer part. -/
def uint64OfFloat (q : ℚ) : Nat := (Int.floor q).toNat

/-- The current epoch `epoch := n.networkUtils.GetEpoch(uint64(layer.Layer))`
of `fetchNetworkInfo`: a `uint32` EpochID value, so reduced modulo 2^32. -/
def epochOf (u : NetworkUtils) (layer : Nat) : Nat := u.getEpoch layer % U32

/-- The previous epoch `uint64(epoch - 1)` used by `fetchNetworkInfo`:
the subtraction happens on the `uint32` EpochID type, so it wraps
modulo 2^32 before widening to `uint64`. -/
def prevEpochOf (u : NetworkUtils) (layer : Nat) : Nat :=
  (epochOf u layer + (U32 - 1)) % U32

/-- Function `fetchNetworkInfo` from `network/state.go`, as a function from the DB,
the EpochMath collaborator, the oracle price and the currently stored
snapshot (the single `INFO_KEY` slot of the `networkInfo` map) to the
stored snapshot after the cycle. Every failing step returns early and
leaves the slot untouched; on success the assembled snapshot is stored.
`epoch - 1` is the `uint32` EpochID subtraction, so it is modelled as
`(epoch + (2^32 - 1)) % 2^32`. -/
def fetchNetworkInfo (db : ReadDB) (u : NetworkUtils) (price : ℚ)
    (m : Option NetworkInfo) : Option NetworkInfo :=
  match db.getLastProcessedLayer with
  | Except.error _ => m
  | Except.ok layer =>
  match db.countAtxEpoch (prevEpochOf u layer.layer) with
  | Except.error _ => m
  | Except.ok atxEpoch =>
  match db.countAtxEpoch (epochOf u layer.layer) with
  | Except.error _ => m
  | Except.ok atxNextEpoch =>
  match db.countAccounts with
  | Except.error _ => m
  | Except.ok totalAccounts =>
  match db.getNetworkInfo with
  | Except.error _ => m
  | Except.ok networkInfo =>
  match db.getAtxEpoch (prevEpochOf u layer.layer) with
  | Except.error _ => m
  | Except.ok atxEpochTotals =>
  match db.getAtxEpoch (epochOf u layer.layer) with
  | Except.error _ => m
  | Except.ok atxNextEpochTotals =>
  match getHigestAtx db (prevEpochOf u layer.layer) with
  | Except.error _ => m
  | Except.ok hexAtx =>
  match hexToBase64 hexAtx with
  | Except.error _ => m
  | Except.ok base64Atx =>
  match u.getNumberOfSlots atxEpochTotals.totalWeight atxEpochTotals.totalWeight (epochOf u layer.layer) with
  | Except.error _ => m
  | Except.ok totalSlots =>
  some
    { epoch := epochOf u layer.layer
      epochSubsidy := u.getEpochSubsidy (epochOf u layer.layer)
      layer := layer.layer
      totalSlots := uint64cast totalSlots
      totalWeight := atxEpochTotals.totalWeight
      effectiveUnitsCommited := atxEpochTotals.totalEffectiveNumUnits
      circulatingSupply := networkInfo.circulatingSupply
      price := price
      marketCap := uint64OfFloat ((networkInfo.circulatingSupply : ℚ) * price)
      totalAccounts := uint64cast (totalAccounts + 28)
      atxHex := hexAtx
      atxBase64 := base64Atx
      totalActiveSmeshers := uint64cast atxEpoch
      nextEpoch := some
        { epoch := (epochOf u layer.layer + 1) % U32
          effectiveUnitsCommited := int64cast atxNextEpochTotals.totalEffectiveNumUnits
          totalActiveSmeshers := atxNextEpoch } }

/-- The `epochSubsidies` map: epoch number (a `uint32` key) to subsidy. -/
def SubsidyTable : Type := Nat → Option Nat

/-- The empty `sync.Map` the state starts with. -/
def emptySubsidyTable : SubsidyTable := fun _ => none

/-- One store into the `epochSubsidies` map. -/
def storeSubsidy (t : SubsidyTable) (k v : Nat) : SubsidyTable :=
  fun e => if e = k then some v else t e

/-- The loop `for i := epoch + 1; i >= 2; i--` of `calculateEpochSubsidies`:
starting at `i`, store `GetEpochSubsidy(i)` under key `i` and decrement,
stopping below 2. -/
def subsidyLoop (s : Nat → Nat) : Nat → SubsidyTable → SubsidyTable
  | 0, t => t
  | 1, t => t
  | i + 2, t => subsidyLoop s (i + 1) (storeSubsidy t (i + 2) (s (i + 2)))

/-- Function `calculateEpochSubsidies` from `network/state.go`: read the last
processed layer (abort on failure, leaving the table untouched), derive
the epoch, then run the store loop from `epoch + 1` (a `uint32`
increment) down to 2. -/
def calculateEpochSubsidies (db : ReadDB) (u : NetworkUtils)
    (t : SubsidyTable) : SubsidyTable :=
  match db.getLastProcessedLayer with
  | Except.error _ => t
  | Except.ok layer =>
    subsidyLoop u.getEpochSubsidy ((epochOf u layer.layer + 1) % U32) t

/-- Method `GetInfo` from `network/state.go`: return the stored snapshot, or the
zero-valued `types.NetworkInfo{}` when no snapshot was ever stored. -/
def GetInfo (m : Option NetworkInfo) : NetworkInfo :=
  match m with
  | none => emptyNetworkInfo
  | some networkInfo => networkInfo

/-- Method `GetEpochSubsidy` from `network/state.go`: the stored amount, or 0 when
the epoch has no entry. -/
def GetEpochSubsidy (t : SubsidyTable) (epoch : Nat) : Nat :=
  match t epoch with
  | none => 0
  | some subsidy => subsidy

/-- Eligible ATXs: those not authored by a malfeasant node. -/
def eligibleAtxs (malf : String → Bool) (l : List Atx) : List Atx :=
  l.filter (fun a => !(malf a.nodeID))

/-- Maximum height over the eligible ATXs (0 when there is none). -/
def maxEligibleHeight (malf : String → Bool) (l : List Atx) : Nat :=
  (eligibleAtxs malf l).foldr (fun a m => max (atxHeight a) m) 0

/-- The highest-ATX result exactly as the spec sentence words it: the
identifier of the first-encountered eligible ATX attaining the maximum
eligible height, with no further condition. -/
def claimHighestAtx (malf : String → Bool) (l : List Atx) : String :=
  match (eligibleAtxs malf l).find?
      (fun a => atxHeight a == maxEligibleHeight malf l) with
  | none => ""
  | some a => a.atxID

/-- The highest-ATX result the selection loop actually computes: as
`claimHighestAtx`, but the empty identifier whenever every eligible
height is 0 (the tracked maximum starts at 0 and is only replaced by
a strictly greater height). -/
def specHighestAtx (malf : String → Bool) (l : List Atx) : String :=
  if maxEligibleHeight malf l = 0 then ""
  else claimHighestAtx malf l

/-- Outcome of handling one message in a sink consumption loop. -/
inductive MsgOutcome
  | ack
  | nak
  | fatal
deriving Repr, DecidableEq

/-- Handling of one message by `StartRewardsSink` / `StartLayersSink`
(the five loops are structurally identical): decode the JSON payload;
on decode failure the source calls `log.Fatal`, which exits the process
(`fatal`) — the `continue` after it is dead code; on persistence failure
`msg.Nak()`; on success `msg.Ack()`. -/
def processSinkMsg {F : Type} (decode : String → Option F)
    (save : F → Except String Unit) (data : String) : MsgOutcome :=
  match decode data with
  | none => MsgOutcome.fatal
  | some fact =>
    match save fact with
    | Except.error _ => MsgOutcome.nak
    | Except.ok _ => MsgOutcome.ack

/-- A fetched batch processed in order, as the sink loops do. `log.Fatal`
terminates the whole process, so no message after a fatal one is ever
handled; the list records the outcomes of the messages actually handled. -/
def runSinkBatch {F : Type} (decode : String → Option F)
    (save : F → Except String Unit) : List String → List MsgOutcome
  | [] => []
  | d :: rest =>
    match processSinkMsg decode save d with
    | MsgOutcome.fatal => [MsgOutcome.fatal]
    | o => o :: runSinkBatch decode save rest

/-- Handling of one message as the spec's poison-message policy demands:
decode failure is negative-acknowledged and the loop continues. -/
def specProcessSinkMsg {F : Type} (decode : String → Option F)
    (save : F → Except String Unit) (data : String) : MsgOutcome :=
  match decode data with
  | none => MsgOutcome.nak
  | some fact =>
    match save fact with
    | Except.error _ => MsgOutcome.nak
    | Except.ok _ => MsgOutcome.ack

/-- Batch processing under the spec's policy: every message of the batch
is handled. -/
def specRunSinkBatch {F : Type} (decode : String → Option F)
    (save : F → Except String Unit) (batch : List String) : List MsgOutcome :=
  batch.map (specProcessSinkMsg decode save)

/-- One `js.AddConsumer(stream, &nats.ConsumerConfig{...})` call of
`NewSink`. -/
structure ConsumerConfig where
  stream : String
  durable : String
  deliverSubject : String
  deliverGroup : String
deriving Repr, DecidableEq

/-- The five `js.AddConsumer` calls of `NewSink`, in source order. -/
def addedConsumers : List ConsumerConfig :=
  [ { stream := "layers", durable := "state-api-process",
      deliverSubject := "layers", deliverGroup := "state-api-process-layers" },
    { stream := "rewards", durable := "state-api-process-rewards",
      deliverSubject := "rewards", deliverGroup := "state-api-process-rewards" },
    { stream := "atx", durable := "state-api-process-atx",
      deliverSubject := "atx", deliverGroup := "state-api-process-atx" },
    { stream := "transactions", durable := "state-api-process-transactions-result",
      deliverSubject := "transactions.result", deliverGroup := "state-api-process-transactions" },
    { stream := "transactions", durable := "state-api-process-transactions-created",
      deliverSubject := "transactions.created", deliverGroup := "state-api-process-transactions" } ]

/-- One `js.PullSubscribe(subject, durable, nats.BindStream(stream))` call
of `NewSink`; the durable name is the delivery group the pull subscription
is scoped to. -/
structure PullSubscription where
  subject : String
  durable : String
  stream : String
deriving Repr, DecidableEq

/-- The five `js.PullSubscribe` calls of `NewSink`, in source order. -/
def pullSubscriptions : List PullSubscription :=
  [ { subject := "layers", durable := "layers", stream := "layers" },
    { subject := "rewards", durable := "rewards", stream := "rewards" },
    { subject := "atx", durable := "atx", stream := "atx" },
    { subject := "transactions.result", durable := "transactions-result",
      stream := "transactions" },
    { subject := "transactions.created", durable := "transactions-created",
      stream := "transactions" } ]

/-- Fixture: a database whose queried epoch holds a single clean ATX of
height 0 (`BaseTick = TickCount = 0`). -/
def dbZeroHeight : ReadDB :=
  { getLastProcessedLayer := Except.error "unused"
    countAtxEpoch := fun _ => Except.error "unused"
    countAccounts := Except.error "unused"
    getNetworkInfo := Except.error "unused"
    getAtxEpoch := fun _ => Except.error "unused"
    getAtxForEpoch := fun _ => Except.ok [{ atxID := "a", nodeID := "n", baseTick := 0, tickCount := 0 }]
    getMalfeasanceNodes := Except.ok [] }

/-- Fixture: a database whose last-processed-layer read fails. -/
def dbLayerDown : ReadDB :=
  { getLastProcessedLayer := Except.error "connection reset"
    countAtxEpoch := fun _ => Except.ok 1
    countAccounts := Except.ok 1
    getNetworkInfo := Except.ok { circulatingSupply := 1 }
    getAtxEpoch := fun _ => Except.ok { totalWeight := 1, totalEffectiveNumUnits := 1 }
    getAtxForEpoch := fun _ => Except.ok []
    getMalfeasanceNodes := Except.ok [] }

/-- Fixture: the spec's snapshot scenario — last processed layer 4000,
epoch-9 ATX count 12, epoch-10 count 15, 100 accounts, circulating
supply 2,000,000, epoch-9 totals (1000, 50), epoch-10 totals (2000, 70),
no ATXs and no malfeasant nodes in epoch 9. -/
def dbScenario : ReadDB :=
  { getLastProcessedLayer := Except.ok { layer := 4000 }
    countAtxEpoch := fun e => if e = 9 then Except.ok 12 else if e = 10 then Except.ok 15 else Except.error "unexpected epoch"
    countAccounts := Except.ok 100
    getNetworkInfo := Except.ok { circulatingSupply := 2000000 }
    getAtxEpoch := fun e => if e = 9 then Except.ok { totalWeight := 1000, totalEffectiveNumUnits := 50 } else if e = 10 then Except.ok { totalWeight := 2000, totalEffectiveNumUnits := 70 } else Except.error "unexpected epoch"
    getAtxForEpoch := fun e => if e = 9 then Except.ok [] else Except.error "unexpected epoch"
    getMalfeasanceNodes := Except.ok [] }

/-- Fixture: EpochMath mapping layer 4000 to epoch 10, with a positive
subsidy for every epoch and a slot count that records its arguments. -/
def utilsScenario : NetworkUtils :=
  { getEpoch := fun l => if l = 4000 then 10 else 0
    getEpochSubsidy := fun e => e + 1
    getNumberOfSlots := fun w1 w2 e => Except.ok ((w1 : Int) + w2 + e) }

/-- Fixture: a database at epoch 0 — every previous-epoch query is only
answered at the wrapped epoch number 4294967295. -/
def dbEpochZero : ReadDB :=
  { getLastProcessedLayer := Except.ok { layer := 3 }
    countAtxEpoch := fun e => if e = 4294967295 then Except.ok 3 else if e = 0 then Except.ok 4 else Except.error "unexpected epoch"
    countAccounts := Except.ok 50
    getNetworkInfo := Except.ok { circulatingSupply := 777 }
    getAtxEpoch := fun e => if e = 4294967295 then Except.ok { totalWeight := 11, totalEffectiveNumUnits := 12 } else if e = 0 then Except.ok { totalWeight := 13, totalEffectiveNumUnits := 14 } else Except.error "unexpected epoch"
    getAtxForEpoch := fun e => if e = 4294967295 then Except.ok [] else Except.error "unexpected epoch"
    getMalfeasanceNodes := Except.ok [] }

/-- Fixture: EpochMath mapping every layer to epoch 0. -/
def utilsEpochZero : NetworkUtils :=
  { getEpoch := fun _ => 0
    getEpochSubsidy := fun e => e + 1
    getNumberOfSlots := fun w1 w2 e => Except.ok ((w1 : Int) + w2 + e) }

/-- Fixture: a database whose queried epoch holds a single ATX authored by
a flagged node, and nothing else. -/
def dbAllMalfeasant : ReadDB :=
  { getLastProcessedLayer := Except.ok { layer := 4000 }
    countAtxEpoch := fun _ => Except.ok 2
    countAccounts := Except.ok 5
    getNetworkInfo := Except.ok { circulatingSupply := 40 }
    getAtxEpoch := fun _ => Except.ok { totalWeight := 6, totalEffectiveNumUnits := 7 }
    getAtxForEpoch := fun _ => Except.ok [{ atxID := "E", nodeID := "evil", baseTick := 5, tickCount := 6 }]
    getMalfeasanceNodes := Except.ok [{ id := "evil" }] }

/-- Fixture: a subsidy table holding only epoch 3. -/
def tableEpoch3 : SubsidyTable := fun e => if e = 3 then some 99 else none

/-- Fixture: a decoder for the sink demonstration — the payload "bad" is
malformed, everything else decodes. -/
def decodeDemo : String → Option Nat := fun d => if d == "bad" then none else some 1

/-- Fixture: a persistence write that always succeeds. -/
def saveDemo : Nat → Except String Unit := fun _ => Except.ok ()

end SpacemeshDB

namespace SpacemeshDB

/-- Invariant of the selection loop: starting from tracked maximum `maxH`
and accumulator `idAcc`, the loop keeps the accumulator when no eligible
height exceeds `maxH`, and otherwise ends on the first eligible ATX
attaining the maximum eligible height. -/
theorem selectHighest_characterization (malf : String → Bool) :
    ∀ (l : List Atx) (maxH : Nat) (idAcc : String),
      (maxEligibleHeight malf l ≤ maxH → selectHighest malf l maxH idAcc = idAcc) ∧
      (maxH < maxEligibleHeight malf l →
        ∃ b, (eligibleAtxs malf l).find?
            (fun a => atxHeight a == maxEligibleHeight malf l) = some b ∧
          selectHighest malf l maxH idAcc = b.atxID) := by
  intro l
  induction l with
  | nil =>
    intro maxH idAcc
    constructor
    · intro _; rfl
    · intro h
      simp [maxEligibleHeight, eligibleAtxs] at h
  | cons a l ih =>
    intro maxH idAcc
    cases hm : malf a.nodeID with
    | true =>
      have he : eligibleAtxs malf (a :: l) = eligibleAtxs malf l := by
        simp [eligibleAtxs, hm]
      have hM : maxEligibleHeight malf (a :: l) = maxEligibleHeight malf l := by
        simp [maxEligibleHeight, he]
      have hsel : selectHighest malf (a :: l) maxH idAcc =
          selectHighest malf l maxH idAcc := by
        simp [selectHighest, hm]
      rw [hM, he, hsel]
      exact ih maxH idAcc
    | false =>
      have he : eligibleAtxs malf (a :: l) = a :: eligibleAtxs malf l := by
        simp [eligibleAtxs, hm]
      have hM : maxEligibleHeight malf (a :: l) =
          max (atxHeight a) (maxEligibleHeight malf l) := by
        simp [maxEligibleHeight, he]
      rw [hM, he]
      by_cases hgt : maxH < atxHeight a
      · have hsel : selectHighest malf (a :: l) maxH idAcc =
            selectHighest malf l (atxHeight a) a.atxID := by
          simp [selectHighest, hm, hgt]
        rw [hsel]
        constructor
        · intro hle; omega
        · intro _
          by_cases hc : maxEligibleHeight malf l ≤ atxHeight a
          · have hmax : max (atxHeight a) (maxEligibleHeight malf l) =
                atxHeight a := by omega
            refine ⟨a, ?_, (ih (atxHeight a) a.atxID).1 hc⟩
            rw [hmax, List.find?_cons_of_pos _ (by simp)]
          · have hmax : max (atxHeight a) (maxEligibleHeight malf l) =
                maxEligibleHeight malf l := by omega
            obtain ⟨b, hfind, hres⟩ := (ih (atxHeight a) a.atxID).2 (by omega)
            refine ⟨b, ?_, hres⟩
            rw [hmax, List.find?_cons_of_neg _ (by simp; omega)]
            exact hfind
      · have hsel : selectHighest malf (a :: l) maxH idAcc =
            selectHighest malf l maxH idAcc := by
          simp [selectHighest, hm, hgt]
        rw [hsel]
        constructor
        · intro hle
          exact (ih maxH idAcc).1 (by omega)
        · intro hlt
          have hle : atxHeight a ≤ maxH := by omega
          have hmax : max (atxHeight a) (maxEligibleHeight malf l) =
              maxEligibleHeight malf l := by omega
          obtain ⟨b, hfind, hres⟩ := (ih maxH idAcc).2 (by omega)
          refine ⟨b, ?_, hres⟩
          rw [hmax, List.find?_cons_of_neg _ (by simp; omega)]
          exact hfind

/-- The selection loop, run from its initial state, computes
`specHighestAtx`: the first eligible ATX of maximum height, except that a
maximum height of 0 yields the empty identifier. -/
theorem selectHighest_eq_specHighestAtx (malf : String → Bool) (l : List Atx) :
    selectHighest malf l 0 "" = specHighestAtx malf l := by
  rcases Nat.eq_zero_or_pos (maxEligibleHeight malf l) with h | h
  · rw [specHighestAtx, if_pos h]
    exact (selectHighest_characterization malf l 0 "").1 (by omega)
  · obtain ⟨b, hfind, hres⟩ := (selectHighest_characterization malf l 0 "").2 h
    rw [hres, specHighestAtx, if_neg (by omega), claimHighestAtx, hfind]

/-- C1 (amended): for every ATX list and malfeasance set, `getHigestAtx`
returns the identifier of the first-encountered ATX, among those not
authored by a malfeasant node, that attains the maximum eligible height
`baseTick + tickCount` — provided that maximum is strictly positive
(otherwise the empty identifier is returned); in particular a
maximum-height ATX of a flagged node loses to the clean second-highest,
and on equal heights the first-encountered ATX is kept. -/
theorem getHigestAtx_first_max_eligible :
    (∀ (db : ReadDB) (epoch : Nat) (atxs : List Atx) (ml : List MalfeasanceNode),
        db.getAtxForEpoch epoch = Except.ok atxs →
        db.getMalfeasanceNodes = Except.ok ml →
        getHigestAtx db epoch =
          Except.ok (specHighestAtx (inMalfeasanceMap ml) atxs)) ∧
    selectHighest (inMalfeasanceMap [{ id := "bad" }])
      [{ atxID := "A", nodeID := "bad", baseTick := 10, tickCount := 5 },
       { atxID := "B", nodeID := "good", baseTick := 9, tickCount := 4 }] 0 "" = "B" ∧
    selectHighest (fun _ => false)
      [{ atxID := "C", nodeID := "n1", baseTick := 3, tickCount := 4 },
       { atxID := "D", nodeID := "n2", baseTick := 3, tickCount := 4 }] 0 "" = "C" := by
  refine ⟨?_, by decide, by decide⟩
  intro db epoch atxs ml h1 h2
  rw [getHigestAtx, h1, h2]
  exact congrArg Except.ok (selectHighest_eq_specHighestAtx _ _)

/-- C1 witness: on the concrete scenario database the malfeasance-excluding
selection picks the clean node's ATX. -/
theorem getHigestAtx_first_max_eligible_witness :
    getHigestAtx dbZeroHeight 7 =
      Except.ok (specHighestAtx (inMalfeasanceMap []) [{ atxID := "a", nodeID := "n", baseTick := 0, tickCount := 0 }]) :=
  getHigestAtx_first_max_eligible.1 dbZeroHeight 7 _ [] (by rfl) (by rfl)

/-- C1 counterexample: on a single clean ATX of height 0, the claim as
stated selects that ATX (it is the first-encountered eligible ATX and
trivially exceeds every earlier one), but the code returns the empty
identifier, because the tracked maximum starts at 0 and is only replaced
on a strictly greater height. -/
theorem getHigestAtx_zero_height_counterexample :
    getHigestAtx dbZeroHeight 7 = Except.ok "" ∧
    claimHighestAtx (inMalfeasanceMap [])
      [{ atxID := "a", nodeID := "n", baseTick := 0, tickCount := 0 }] = "a" ∧
    ("" : String) ≠ "a" := by
  refine ⟨by rfl, by decide, by decide⟩

/-- C2: if any step of a snapshot refresh cycle fails — the last-processed
layer read, any epoch count or totals query, the accounts count, the
network-info query, highest-ATX selection, the base64 conversion, or the
slot computation — the previously published snapshot slot is exactly
unchanged; and when the cycle does change the slot, every step succeeded. -/
theorem fetchNetworkInfo_no_partial_publication
    (db : ReadDB) (u : NetworkUtils) (p : ℚ) (m : Option NetworkInfo) :
    (∀ e, db.getLastProcessedLayer = Except.error e →
      fetchNetworkInfo db u p m = m) ∧
    (∀ L e, db.getLastProcessedLayer = Except.ok L →
      db.countAtxEpoch (prevEpochOf u L.layer) = Except.error e →
      fetchNetworkInfo db u p m = m) ∧
    (∀ L e, db.getLastProcessedLayer = Except.ok L →
      db.countAtxEpoch (epochOf u L.layer) = Except.error e →
      fetchNetworkInfo db u p m = m) ∧
    (∀ e, db.countAccounts = Except.error e →
      fetchNetworkInfo db u p m = m) ∧
    (∀ e, db.getNetworkInfo = Except.error e →
      fetchNetworkInfo db u p m = m) ∧
    (∀ L e, db.getLastProcessedLayer = Except.ok L →
      db.getAtxEpoch (prevEpochOf u L.layer) = Except.error e →
      fetchNetworkInfo db u p m = m) ∧
    (∀ L e, db.getLastProcessedLayer = Except.ok L →
      db.getAtxEpoch (epochOf u L.layer) = Except.error e →
      fetchNetworkInfo db u p m = m) ∧
    (∀ L e, db.getLastProcessedLayer = Except.ok L →
      getHigestAtx db (prevEpochOf u L.layer) = Except.error e →
      fetchNetworkInfo db u p m = m) ∧
    (∀ L hx e, db.getLastProcessedLayer = Except.ok L →
      getHigestAtx db (prevEpochOf u L.layer) = Except.ok hx →
      hexToBase64 hx = Except.error e →
      fetchNetworkInfo db u p m = m) ∧
    (∀ L t e, db.getLastProcessedLayer = Except.ok L →
      db.getAtxEpoch (prevEpochOf u L.layer) = Except.ok t →
      u.getNumberOfSlots t.totalWeight t.totalWeight (epochOf u L.layer) = Except.error e →
      fetchNetworkInfo db u p m = m) ∧
    (fetchNetworkInfo db u p m ≠ m →
      ∃ L c1 c2 a ni t1 t2 hx b64 sl,
        db.getLastProcessedLayer = Except.ok L ∧
        db.countAtxEpoch (prevEpochOf u L.layer) = Except.ok c1 ∧
        db.countAtxEpoch (epochOf u L.layer) = Except.ok c2 ∧
        db.countAccounts = Except.ok a ∧
        db.getNetworkInfo = Except.ok ni ∧
        db.getAtxEpoch (prevEpochOf u L.layer) = Except.ok t1 ∧
        db.getAtxEpoch (epochOf u L.layer) = Except.ok t2 ∧
        getHigestAtx db (prevEpochOf u L.layer) = Except.ok hx ∧
        hexToBase64 hx = Except.ok b64 ∧
        u.getNumberOfSlots t1.totalWeight t1.totalWeight (epochOf u L.layer) = Except.ok sl) := by
  refine ⟨?_, ?_, ?_, ?_, ?_, ?_, ?_, ?_, ?_, ?_, ?_⟩
  · intro e h
    unfold fetchNetworkInfo
    repeat' split
    all_goals first | rfl | simp_all
  · intro L e hL h
    unfold fetchNetworkInfo
    repeat' split
    all_goals first | rfl | simp_all
  · intro L e hL h
    unfold fetchNetworkInfo
    repeat' split
    all_goals first | rfl | simp_all
  · intro e h
    unfold fetchNetworkInfo
    repeat' split
    all_goals first | rfl | simp_all
  · intro e h
    unfold fetchNetworkInfo
    repeat' split
    all_goals first | rfl | simp_all
  · intro L e hL h
    unfold fetchNetworkInfo
    repeat' split
    all_goals first | rfl | simp_all
  · intro L e hL h
    unfold fetchNetworkInfo
    repeat' split
    all_goals first | rfl | simp_all
  · intro L e hL h
    unfold fetchNetworkInfo
    repeat' split
    all_goals first | rfl | simp_all
  · intro L hx e hL hhx h
    unfold fetchNetworkInfo
    repeat' split
    all_goals first | rfl | simp_all
  · intro L t e hL ht h
    unfold fetchNetworkInfo
    repeat' split
    all_goals first | rfl | simp_all
  · intro hne
    unfold fetchNetworkInfo at hne
    repeat' split at hne
    all_goals try exact absurd rfl hne
    rename_i xa L hL xb c1 hc1 xc c2 hc2 xd a ha xe ni hni xf t1 ht1 xg t2 ht2 xh hx hhx xi b64 hb64 xj sl hsl
    exact ⟨L, c1, c2, a, ni, t1, t2, hx, b64, sl,
      hL, hc1, hc2, ha, hni, ht1, ht2, hhx, hb64, hsl⟩

/-- C2 witness: with the last-processed-layer read failing, the previously
published snapshot is returned unchanged. -/
theorem fetchNetworkInfo_no_partial_publication_witness :
    fetchNetworkInfo dbLayerDown utilsScenario 1 (some emptyNetworkInfo) =
      some emptyNetworkInfo :=
  (fetchNetworkInfo_no_partial_publication dbLayerDown utilsScenario 1
    (some emptyNetworkInfo)).1 "connection reset" (by rfl)

/-- Keys above the loop start or below 2 are left untouched by the
subsidy store loop. -/
theorem subsidyLoop_outside (s : Nat → Nat) :
    ∀ (i : Nat) (t : SubsidyTable) (e : Nat), (i < e ∨ e < 2) →
      subsidyLoop s i t e = t e := by
  intro i
  induction i using Nat.strong_induction_on with
  | _ i ih =>
    match i with
    | 0 => intro t e _; rfl
    | 1 => intro t e _; rfl
    | n + 2 =>
      intro t e h
      rw [subsidyLoop, ih (n + 1) (by omega) _ e (by omega), storeSubsidy]
      have hne : ¬ (e = n + 2) := by omega
      simp [hne]

/-- Every key from 2 up to the loop start receives the subsidy
function's value. -/
theorem subsidyLoop_inside (s : Nat → Nat) :
    ∀ (i : Nat) (t : SubsidyTable) (e : Nat), 2 ≤ e → e ≤ i →
      subsidyLoop s i t e = some (s e) := by
  intro i
  induction i using Nat.strong_induction_on with
  | _ i ih =>
    match i with
    | 0 => intro t e h1 h2; omega
    | 1 => intro t e h1 h2; omega
    | n + 2 =>
      intro t e h1 h2
      rw [subsidyLoop]
      by_cases hcase : e = n + 2
      · subst hcase
        rw [subsidyLoop_outside s (n + 1) _ _ (by omega)]
        simp [storeSubsidy]
      · exact ih (n + 1) (by omega) _ e h1 (by omega)

/-- C3: after one run of the subsidy-table refresh in which the last
processed layer maps to epoch E (with E + 1 a representable EpochID),
`GetEpochSubsidy e` returns EpochMath's value for every 2 ≤ e ≤ E + 1 —
non-zero whenever EpochMath's value is, and identical for any prior table
contents, hence stable across re-runs — and returns 0 for every e < 2. -/
theorem calculateEpochSubsidies_coverage
    (db : ReadDB) (u : NetworkUtils) (L : LayerDoc) (E : Nat)
    (hL : db.getLastProcessedLayer = Except.ok L)
    (hE : u.getEpoch L.layer = E)
    (hEr : E + 1 < U32)
    (hnz : ∀ e, 2 ≤ e → u.getEpochSubsidy e ≠ 0) :
    ∀ e, (2 ≤ e → e ≤ E + 1 →
        (∀ t, GetEpochSubsidy (calculateEpochSubsidies db u t) e = u.getEpochSubsidy e) ∧
        GetEpochSubsidy (calculateEpochSubsidies db u emptySubsidyTable) e ≠ 0) ∧
      (e < 2 → GetEpochSubsidy (calculateEpochSubsidies db u emptySubsidyTable) e = 0) := by
  have hepoch : epochOf u L.layer = E := by
    rw [epochOf, hE]
    exact Nat.mod_eq_of_lt (by omega)
  have hstart : (epochOf u L.layer + 1) % U32 = E + 1 := by
    rw [hepoch]
    exact Nat.mod_eq_of_lt hEr
  have hcalc : ∀ t, calculateEpochSubsidies db u t =
      subsidyLoop u.getEpochSubsidy (E + 1) t := by
    intro t
    simp only [calculateEpochSubsidies, hL, hstart]
  intro e
  constructor
  · intro h1 h2
    constructor
    · intro t
      rw [hcalc, GetEpochSubsidy, subsidyLoop_inside u.getEpochSubsidy (E + 1) t e h1 h2]
    · rw [hcalc, GetEpochSubsidy,
        subsidyLoop_inside u.getEpochSubsidy (E + 1) emptySubsidyTable e h1 h2]
      exact hnz e h1
  · intro h
    rw [hcalc, GetEpochSubsidy,
      subsidyLoop_outside u.getEpochSubsidy (E + 1) emptySubsidyTable e (Or.inr h)]
    rfl

/-- C3 witness: on the scenario fixture (layer 4000 mapping to epoch 10)
the refreshed table answers epoch 5 with EpochMath's value and epoch 0
with 0. -/
theorem calculateEpochSubsidies_coverage_witness :
    GetEpochSubsidy (calculateEpochSubsidies dbScenario utilsScenario emptySubsidyTable) 5 =
      utilsScenario.getEpochSubsidy 5 ∧
    GetEpochSubsidy (calculateEpochSubsidies dbScenario utilsScenario emptySubsidyTable) 0 = 0 := by
  have h := calculateEpochSubsidies_coverage dbScenario utilsScenario
    { layer := 4000 } 10 (by rfl) (by rfl) (by decide)
    (fun e _ => Nat.succ_ne_zero e)
  exact ⟨((h 5).1 (by decide) (by decide)).1 emptySubsidyTable, (h 0).2 (by decide)⟩

/-- C4: the sink's actual behaviour on a malformed message, in evidence of
the divergence from the claim — the decode failure is handled by
`log.Fatal`, which terminates the process, so the subsequent well-formed
message is never decoded, persisted or acknowledged (the claimed outcome
would be a negative acknowledgment followed by an acknowledgment). -/
theorem sink_decode_failure_terminates :
    runSinkBatch decodeDemo saveDemo ["bad", "good"] = [MsgOutcome.fatal] ∧
    processSinkMsg decodeDemo saveDemo "bad" = MsgOutcome.fatal ∧
    processSinkMsg decodeDemo saveDemo "good" = MsgOutcome.ack ∧
    specRunSinkBatch decodeDemo saveDemo ["bad", "good"] =
      [MsgOutcome.nak, MsgOutcome.ack] ∧
    runSinkBatch decodeDemo saveDemo ["bad", "good"] ≠
      specRunSinkBatch decodeDemo saveDemo ["bad", "good"] := by
  refine ⟨by rfl, by rfl, by rfl, by rfl, by decide⟩

/-- C7: the five pull subscriptions established at bootstrap cover exactly
the subjects layers, rewards, atx, transactions.result and
transactions.created, and their durable delivery-group names are pairwise
distinct — as are the durable consumer names of the five AddConsumer
calls — so no two subjects share a delivery group. -/
theorem sink_bootstrap_distinct_groups :
    pullSubscriptions.map PullSubscription.subject =
      ["layers", "rewards", "atx", "transactions.result", "transactions.created"] ∧
    (pullSubscriptions.map PullSubscription.durable).Nodup ∧
    (addedConsumers.map ConsumerConfig.durable).Nodup := by
  refine ⟨by rfl, by decide, by decide⟩

/-- C8: `GetInfo` yields the stored snapshot, and the all-zero snapshot
(with no next-epoch record) when nothing has ever been stored;
`GetEpochSubsidy` yields the stored amount, and 0 when the epoch has no
entry. -/
theorem read_contract_defaults :
    (GetInfo none =
      { epoch := 0, epochSubsidy := 0, layer := 0, totalSlots := 0
        totalWeight := 0, effectiveUnitsCommited := 0, circulatingSupply := 0
        price := 0, marketCap := 0, totalAccounts := 0, atxHex := ""
        atxBase64 := "", totalActiveSmeshers := 0, nextEpoch := none }) ∧
    (∀ info, GetInfo (some info) = info) ∧
    (∀ (t : SubsidyTable) (e v : Nat), t e = some v → GetEpochSubsidy t e = v) ∧
    (∀ (t : SubsidyTable) (e : Nat), t e = none → GetEpochSubsidy t e = 0) := by
  refine ⟨by rfl, fun info => by rfl, ?_, ?_⟩
  · intro t e v h
    rw [GetEpochSubsidy, h]
  · intro t e h
    rw [GetEpochSubsidy, h]

/-- C8 witness: on a table holding only epoch 3, the stored amount is
returned at 3 and the default 0 elsewhere. -/
theorem read_contract_defaults_witness :
    GetEpochSubsidy tableEpoch3 3 = 99 ∧ GetEpochSubsidy tableEpoch3 7 = 0 :=
  ⟨read_contract_defaults.2.2.1 tableEpoch3 3 99 (by rfl),
   read_contract_defaults.2.2.2 tableEpoch3 7 (by rfl)⟩

/-- When every ATX of the list is authored by a malfeasant node, the
selection loop returns its initial empty identifier. -/
theorem selectHighest_all_malfeasant (malf : String → Bool) (l : List Atx)
    (h : ∀ a ∈ l, malf a.nodeID = true) :
    selectHighest malf l 0 "" = "" := by
  have he : eligibleAtxs malf l = [] := by
    rw [eligibleAtxs]
    rw [List.filter_eq_nil_iff]
    intro a ha
    simp [h a ha]
  exact (selectHighest_characterization malf l 0 "").1
    (by rw [maxEligibleHeight, he]; exact Nat.le_refl 0)

/-- C6: when a refresh cycle succeeds with last processed layer L mapping
to epoch N, the stored snapshot has Epoch = N, NextEpoch.Epoch = N + 1,
TotalActiveSmeshers = the epoch N−1 ATX count, NextEpoch's count = the
epoch N count, TotalWeight and EffectiveUnitsCommited from epoch N−1's
totals, MarketCap = the truncated product of circulating supply and price,
and TotalAccounts = the account count plus the genesis offset 28. -/
theorem fetchNetworkInfo_snapshot_fields
    (db : ReadDB) (u : NetworkUtils) (p : ℚ) (m : Option NetworkInfo)
    (L : LayerDoc) (N : Nat) (c1 c2 a : Int) (ni : NetworkInfoDoc)
    (t1 t2 : AtxEpochTotals) (hx b64 : String) (sl : Int)
    (hE : u.getEpoch L.layer = N) (hN1 : 1 ≤ N) (hN2 : N + 1 < U32)
    (hL : db.getLastProcessedLayer = Except.ok L)
    (hc1 : db.countAtxEpoch (N - 1) = Except.ok c1)
    (hc2 : db.countAtxEpoch N = Except.ok c2)
    (ha : db.countAccounts = Except.ok a)
    (hni : db.getNetworkInfo = Except.ok ni)
    (ht1 : db.getAtxEpoch (N - 1) = Except.ok t1)
    (ht2 : db.getAtxEpoch N = Except.ok t2)
    (hhx : getHigestAtx db (N - 1) = Except.ok hx)
    (hb64 : hexToBase64 hx = Except.ok b64)
    (hsl : u.getNumberOfSlots t1.totalWeight t1.totalWeight N = Except.ok sl) :
    fetchNetworkInfo db u p m = some
      { epoch := N
        epochSubsidy := u.getEpochSubsidy N
        layer := L.layer
        totalSlots := uint64cast sl
        totalWeight := t1.totalWeight
        effectiveUnitsCommited := t1.totalEffectiveNumUnits
        circulatingSupply := ni.circulatingSupply
        price := p
        marketCap := uint64OfFloat ((ni.circulatingSupply : ℚ) * p)
        totalAccounts := uint64cast (a + 28)
        atxHex := hx
        atxBase64 := b64
        totalActiveSmeshers := uint64cast c1
        nextEpoch := some
          { epoch := N + 1
            effectiveUnitsCommited := int64cast t2.totalEffectiveNumUnits
            totalActiveSmeshers := c2 } } := by
  have hN2u : N + 1 < 2 ^ 32 := by
    have h32 : U32 = 2 ^ 32 := rfl
    omega
  have hepoch : epochOf u L.layer = N := by
    rw [epochOf, hE]
    exact Nat.mod_eq_of_lt (by rw [U32]; omega)
  have hprev : prevEpochOf u L.layer = N - 1 := by
    rw [prevEpochOf, hepoch, U32]
    omega
  have hmod : (N + 1) % U32 = N + 1 := Nat.mod_eq_of_lt hN2
  simp only [fetchNetworkInfo, hL, hprev, hepoch, hmod, hc1, hc2, ha, hni,
    ht1, ht2, hhx, hb64, hsl]

/-- C6 witness: the spec scenario — layer 4000 at epoch 10, counts 12 and
15, totals (1000, 50), 100 accounts, supply 2,000,000, price 1/20 — yields
Epoch 10, MarketCap 100,000, NextEpoch.Epoch 11, TotalActiveSmeshers 12,
NextEpoch.TotalActiveSmeshers 15 and TotalAccounts 128. -/
theorem fetchNetworkInfo_snapshot_fields_witness :
    fetchNetworkInfo dbScenario utilsScenario (1 / 20) none = some
      { epoch := 10, epochSubsidy := 11, layer := 4000, totalSlots := 2010
        totalWeight := 1000, effectiveUnitsCommited := 50
        circulatingSupply := 2000000, price := 1 / 20, marketCap := 100000
        totalAccounts := 128, atxHex := "", atxBase64 := ""
        totalActiveSmeshers := 12
        nextEpoch := some
          { epoch := 11, effectiveUnitsCommited := 70, totalActiveSmeshers := 15 } } := by
  have h := fetchNetworkInfo_snapshot_fields dbScenario utilsScenario (1 / 20) none
    { layer := 4000 } 10 12 15 100 { circulatingSupply := 2000000 }
    { totalWeight := 1000, totalEffectiveNumUnits := 50 }
    { totalWeight := 2000, totalEffectiveNumUnits := 70 } "" "" 2010
    (by rfl) (by decide) (by decide) (by rfl) (by rfl) (by rfl) (by rfl)
    (by rfl) (by rfl) (by rfl) (by rfl) (by rfl) (by rfl)
  rw [h]
  simp only [Option.some.injEq, NetworkInfo.mk.injEq, NetworkInfoNextEpoch.mk.injEq]
  norm_num [uint64cast, int64cast, uint64OfFloat]
  decide

/-- C5: for an ATX set that is empty or in which every ATX is authored by
a malfeasant node, highest-ATX selection returns the empty identifier
without error; the base64 conversion of the empty hex string also
succeeds, so such a cycle is not aborted, and the stored snapshot's
AtxHex and AtxBase64 fields are empty strings. -/
theorem getHigestAtx_empty_or_malfeasant
    (db : ReadDB) (u : NetworkUtils) (p : ℚ)
    (L : LayerDoc) (N : Nat) (atxs : List Atx) (ml : List MalfeasanceNode)
    (c1 c2 a : Int) (ni : NetworkInfoDoc) (t1 t2 : AtxEpochTotals) (sl : Int)
    (hE : u.getEpoch L.layer = N) (hN1 : 1 ≤ N) (hN2 : N + 1 < U32)
    (hL : db.getLastProcessedLayer = Except.ok L)
    (hatx : db.getAtxForEpoch (N - 1) = Except.ok atxs)
    (hml : db.getMalfeasanceNodes = Except.ok ml)
    (hmal : ∀ x ∈ atxs, inMalfeasanceMap ml x.nodeID = true)
    (hc1 : db.countAtxEpoch (N - 1) = Except.ok c1)
    (hc2 : db.countAtxEpoch N = Except.ok c2)
    (ha : db.countAccounts = Except.ok a)
    (hni : db.getNetworkInfo = Except.ok ni)
    (ht1 : db.getAtxEpoch (N - 1) = Except.ok t1)
    (ht2 : db.getAtxEpoch N = Except.ok t2)
    (hsl : u.getNumberOfSlots t1.totalWeight t1.totalWeight N = Except.ok sl) :
    getHigestAtx db (N - 1) = Except.ok "" ∧
    hexToBase64 "" = Except.ok "" ∧
    ∃ info, fetchNetworkInfo db u p none = some info ∧
      info.atxHex = "" ∧ info.atxBase64 = "" := by
  have hsel := selectHighest_all_malfeasant (inMalfeasanceMap ml) atxs hmal
  have hhx : getHigestAtx db (N - 1) = Except.ok "" := by
    simp only [getHigestAtx, hatx, hml, hsel]
  have hb64 : hexToBase64 "" = Except.ok "" := by rfl
  have hN2u : N + 1 < 2 ^ 32 := by
    have h32 : U32 = 2 ^ 32 := rfl
    omega
  have hepoch : epochOf u L.layer = N := by
    rw [epochOf, hE]
    exact Nat.mod_eq_of_lt (by rw [U32]; omega)
  have hprev : prevEpochOf u L.layer = N - 1 := by
    rw [prevEpochOf, hepoch, U32]
    omega
  refine ⟨hhx, hb64,
    ⟨{ epoch := N, epochSubsidy := u.getEpochSubsidy N, layer := L.layer,
       totalSlots := uint64cast sl, totalWeight := t1.totalWeight,
       effectiveUnitsCommited := t1.totalEffectiveNumUnits,
       circulatingSupply := ni.circulatingSupply, price := p,
       marketCap := uint64OfFloat ((ni.circulatingSupply : ℚ) * p),
       totalAccounts := uint64cast (a + 28), atxHex := "", atxBase64 := "",
       totalActiveSmeshers := uint64cast c1,
       nextEpoch := some
         { epoch := (N + 1) % U32,
           effectiveUnitsCommited := int64cast t2.totalEffectiveNumUnits,
           totalActiveSmeshers := c2 } }, ?_, rfl, rfl⟩⟩
  simp only [fetchNetworkInfo, hL, hprev, hepoch, hc1, hc2, ha, hni, ht1,
    ht2, hhx, hb64, hsl]

/-- C5 witness: on the fully-malfeasant fixture, selection yields the empty
identifier, the empty string converts, and the stored snapshot has empty
ATX fields. -/
theorem getHigestAtx_empty_or_malfeasant_witness :
    getHigestAtx dbAllMalfeasant 9 = Except.ok "" ∧
    hexToBase64 "" = Except.ok "" ∧
    ∃ info, fetchNetworkInfo dbAllMalfeasant utilsScenario 3 none = some info ∧
      info.atxHex = "" ∧ info.atxBase64 = "" :=
  getHigestAtx_empty_or_malfeasant dbAllMalfeasant utilsScenario 3
    { layer := 4000 } 10
    [{ atxID := "E", nodeID := "evil", baseTick := 5, tickCount := 6 }]
    [{ id := "evil" }] 2 2 5 { circulatingSupply := 40 }
    { totalWeight := 6, totalEffectiveNumUnits := 7 }
    { totalWeight := 6, totalEffectiveNumUnits := 7 } 22
    (by rfl) (by decide) (by decide) (by rfl) (by rfl) (by rfl) (by decide)
    (by rfl) (by rfl) (by rfl) (by rfl) (by rfl) (by rfl) (by rfl)

/-- C9: in every successful refresh cycle, the total-slots value comes from
calling the slot-count function with epoch−1's total weight passed
identically as both weight arguments, together with the current epoch, and
the stored snapshot's TotalSlots field equals that result. -/
theorem fetchNetworkInfo_total_slots
    (db : ReadDB) (u : NetworkUtils) (p : ℚ) (m : Option NetworkInfo)
    (L : LayerDoc) (N : Nat) (c1 c2 a : Int) (ni : NetworkInfoDoc)
    (t1 t2 : AtxEpochTotals) (hx b64 : String) (sl : Int)
    (hE : u.getEpoch L.layer = N) (hN1 : 1 ≤ N) (hN2 : N + 1 < U32)
    (hL : db.getLastProcessedLayer = Except.ok L)
    (hc1 : db.countAtxEpoch (N - 1) = Except.ok c1)
    (hc2 : db.countAtxEpoch N = Except.ok c2)
    (ha : db.countAccounts = Except.ok a)
    (hni : db.getNetworkInfo = Except.ok ni)
    (ht1 : db.getAtxEpoch (N - 1) = Except.ok t1)
    (ht2 : db.getAtxEpoch N = Except.ok t2)
    (hhx : getHigestAtx db (N - 1) = Except.ok hx)
    (hb64 : hexToBase64 hx = Except.ok b64)
    (hsl : u.getNumberOfSlots t1.totalWeight t1.totalWeight N = Except.ok sl) :
    ∃ info, fetchNetworkInfo db u p m = some info ∧
      info.totalSlots = uint64cast sl ∧
      (0 ≤ sl → sl < 2 ^ 64 → (info.totalSlots : Int) = sl) := by
  have hN2u : N + 1 < 2 ^ 32 := by
    have h32 : U32 = 2 ^ 32 := rfl
    omega
  have hepoch : epochOf u L.layer = N := by
    rw [epochOf, hE]
    exact Nat.mod_eq_of_lt (by rw [U32]; omega)
  have hprev : prevEpochOf u L.layer = N - 1 := by
    rw [prevEpochOf, hepoch, U32]
    omega
  refine ⟨{ epoch := N, epochSubsidy := u.getEpochSubsidy N, layer := L.layer,
            totalSlots := uint64cast sl, totalWeight := t1.totalWeight,
            effectiveUnitsCommited := t1.totalEffectiveNumUnits,
            circulatingSupply := ni.circulatingSupply, price := p,
            marketCap := uint64OfFloat ((ni.circulatingSupply : ℚ) * p),
            totalAccounts := uint64cast (a + 28), atxHex := hx, atxBase64 := b64,
            totalActiveSmeshers := uint64cast c1,
            nextEpoch := some
              { epoch := (N + 1) % U32,
                effectiveUnitsCommited := int64cast t2.totalEffectiveNumUnits,
                totalActiveSmeshers := c2 } }, ?_, rfl, ?_⟩
  · simp only [fetchNetworkInfo, hL, hprev, hepoch, hc1, hc2, ha, hni, ht1,
      ht2, hhx, hb64, hsl]
  · intro h0 hlt
    show ((uint64cast sl : Nat) : Int) = sl
    rw [uint64cast, Int.emod_eq_of_lt h0 hlt, Int.toNat_of_nonneg h0]

/-- C9 witness: on the scenario fixture the slot-count function receives
(1000, 1000, 10) and the snapshot records its result 2010. -/
theorem fetchNetworkInfo_total_slots_witness :
    ∃ info, fetchNetworkInfo dbScenario utilsScenario (1 / 20) none = some info ∧
      info.totalSlots = uint64cast 2010 ∧
      (0 ≤ (2010 : Int) → (2010 : Int) < 2 ^ 64 → (info.totalSlots : Int) = 2010) :=
  fetchNetworkInfo_total_slots dbScenario utilsScenario (1 / 20) none
    { layer := 4000 } 10 12 15 100 { circulatingSupply := 2000000 }
    { totalWeight := 1000, totalEffectiveNumUnits := 50 }
    { totalWeight := 2000, totalEffectiveNumUnits := 70 } "" "" 2010
    (by rfl) (by decide) (by decide) (by rfl) (by rfl) (by rfl) (by rfl)
    (by rfl) (by rfl) (by rfl) (by rfl) (by rfl) (by rfl)

/-- C10: when the last processed layer maps to epoch 0, the refresh cycle
neither fails nor skips: `epoch − 1` wraps in unsigned (uint32 EpochID)
arithmetic, so the previous-epoch ATX count, previous-epoch totals and
highest-ATX selection are all queried at the maximum representable epoch
number 4294967295, and the snapshot is stored with those values, with
Epoch 0 and NextEpoch.Epoch 1. -/
theorem fetchNetworkInfo_epoch_zero_wrap
    (db : ReadDB) (u : NetworkUtils) (p : ℚ) (m : Option NetworkInfo)
    (L : LayerDoc) (c1 c2 a : Int) (ni : NetworkInfoDoc)
    (t1 t2 : AtxEpochTotals) (hx b64 : String) (sl : Int)
    (hE : u.getEpoch L.layer = 0)
    (hL : db.getLastProcessedLayer = Except.ok L)
    (hc1 : db.countAtxEpoch 4294967295 = Except.ok c1)
    (hc2 : db.countAtxEpoch 0 = Except.ok c2)
    (ha : db.countAccounts = Except.ok a)
    (hni : db.getNetworkInfo = Except.ok ni)
    (ht1 : db.getAtxEpoch 4294967295 = Except.ok t1)
    (ht2 : db.getAtxEpoch 0 = Except.ok t2)
    (hhx : getHigestAtx db 4294967295 = Except.ok hx)
    (hb64 : hexToBase64 hx = Except.ok b64)
    (hsl : u.getNumberOfSlots t1.totalWeight t1.totalWeight 0 = Except.ok sl) :
    ∃ info, fetchNetworkInfo db u p m = some info ∧
      info.epoch = 0 ∧
      info.totalActiveSmeshers = uint64cast c1 ∧
      info.totalWeight = t1.totalWeight ∧
      info.effectiveUnitsCommited = t1.totalEffectiveNumUnits ∧
      info.atxHex = hx ∧
      info.nextEpoch = some
        { epoch := 1
          effectiveUnitsCommited := int64cast t2.totalEffectiveNumUnits
          totalActiveSmeshers := c2 } := by
  have hepoch : epochOf u L.layer = 0 := by
    rw [epochOf, hE]
    exact Nat.zero_mod U32
  have hprev : prevEpochOf u L.layer = 4294967295 := by
    rw [prevEpochOf, hepoch, U32]
    norm_num
  have hmod : (0 + 1) % U32 = 1 := by
    rw [U32]
    norm_num
  refine ⟨{ epoch := 0, epochSubsidy := u.getEpochSubsidy 0, layer := L.layer,
            totalSlots := uint64cast sl, totalWeight := t1.totalWeight,
            effectiveUnitsCommited := t1.totalEffectiveNumUnits,
            circulatingSupply := ni.circulatingSupply, price := p,
            marketCap := uint64OfFloat ((ni.circulatingSupply : ℚ) * p),
            totalAccounts := uint64cast (a + 28), atxHex := hx, atxBase64 := b64,
            totalActiveSmeshers := uint64cast c1,
            nextEpoch := some
              { epoch := 1,
                effectiveUnitsCommited := int64cast t2.totalEffectiveNumUnits,
                totalActiveSmeshers := c2 } }, ?_, rfl, rfl, rfl, rfl, rfl, rfl⟩
  simp only [fetchNetworkInfo, hL, hprev, hepoch, hmod, hc1, hc2, ha, hni,
    ht1, ht2, hhx, hb64, hsl]

/-- C10 witness: on the epoch-zero fixture — whose database answers the
previous-epoch queries only at 4294967295 — the cycle stores a snapshot
built from those wrapped-epoch values. -/
theorem fetchNetworkInfo_epoch_zero_wrap_witness :
    ∃ info, fetchNetworkInfo dbEpochZero utilsEpochZero 2 none = some info ∧
      info.epoch = 0 ∧
      info.totalActiveSmeshers = uint64cast 3 ∧
      info.totalWeight = 11 ∧
      info.effectiveUnitsCommited = 12 ∧
      info.atxHex = "" ∧
      info.nextEpoch = some
        { epoch := 1
          effectiveUnitsCommited := int64cast 14
          totalActiveSmeshers := 4 } :=
  fetchNetworkInfo_epoch_zero_wrap dbEpochZero utilsEpochZero 2 none
    { layer := 3 } 3 4 50 { circulatingSupply := 777 }
    { totalWeight := 11, totalEffectiveNumUnits := 12 }
    { totalWeight := 13, totalEffectiveNumUnits := 14 } "" "" 22
    (by rfl) (by rfl) (by rfl) (by rfl) (by rfl) (by rfl) (by rfl)
    (by rfl) (by rfl) (by rfl) (by rfl)

example : hexToBase64 "" = Except.ok "" := by rfl
example : hexToBase64 "4d61" = Except.ok "TWE=" := by rfl
example : hexToBase64 "zz" = Except.error "encoding hex invalid byte" := by rfl
example : selectHighest (fun _ => false) [⟨"a", "n", 1, 2⟩, ⟨"b", "m", 2, 2⟩] 0 "" = "b" := by rfl

end SpacemeshDB
